import Mathlib

/-!
Verification of the Slack event-relay server (`main.go`).

The server exposes one HTTP handler, `handleSlackEvents`, which:
  * rejects non-POST methods with 405,
  * answers the Slack `url_verification` handshake by echoing the challenge,
  * for qualifying `event_callback` envelopes builds an `APIRequestBody`,
    serializes it with Go's `encoding/json` and POSTs it to the configured
    downstream URL with a cookie-authenticated request,
  * answers 200 with an empty body otherwise.

The embedding below mirrors `main.go`.  The four points at which the Go code
checks `err != nil` while talking to the downstream API (json.Marshal,
http.NewRequest, client.Do, io.ReadAll of the response) are modelled by a
`DownstreamEnv` oracle of four booleans; `true` means the corresponding Go
call succeeded.  The handler's observable behaviour is a `HandlerResult`:
the HTTP status written, the response body written (Go's `http.Error`
appends a newline to its message), and the list of downstream requests that
reached `client.Do` (the list has at most one element; it is nonempty iff
the code called `client.Do`).
-/

/-- Mirrors Go struct `SlackMessageEvent` of main.go (JSON tags:
type, text, channel, thread_ts, ts, user, channel_type, bot_id). -/
structure SlackMessageEvent where
  type : String
  text : String
  channelID : String
  threadTS : String
  ts : String
  user : String
  channelType : String
  botID : String
deriving DecidableEq, Repr

/-- Mirrors Go struct `SlackEventPayload` of main.go. -/
structure SlackEventPayload where
  type : String
  challenge : String
  event : SlackMessageEvent
deriving DecidableEq, Repr

/-- Mirrors Go struct `APIRequestBody` of main.go. -/
structure APIRequestBody where
  THREAD_ID : String
  CHANNEL_ID : String
  USER_ID : String
  QUERY : String
deriving DecidableEq, Repr

/-- Success/failure oracle for the four fallible downstream steps in
`handleSlackEvents`: `json.Marshal`, `http.NewRequest`, `client.Do`,
`io.ReadAll(resp.Body)`.  A field is `true` when the Go call returns
`err == nil`. -/
structure DownstreamEnv where
  marshalOk : Bool
  newRequestOk : Bool
  sendOk : Bool
  readOk : Bool
deriving DecidableEq, Repr

/-- A downstream HTTP request as built by `handleSlackEvents`: method,
URL, the two headers it sets, and the serialized JSON body. -/
structure DownstreamRequest where
  method : String
  url : String
  contentType : String
  cookie : String
  bodyJson : String
deriving DecidableEq, Repr

/-- Observable outcome of one invocation of the handler: HTTP status,
response body written to the caller, and the downstream requests on which
`client.Do` was invoked (in order; at most one in this program). -/
structure HandlerResult where
  status : Nat
  body : String
  attempts : List DownstreamRequest
deriving DecidableEq, Repr

/-- Lower-case hex digit, as used by Go's `encoding/json` `\u00XX` escapes. -/
def hexDigit (n : Nat) : Char :=
  if n < 10 then Char.ofNat (48 + n) else Char.ofNat (87 + n)

/-- Escaping of one character exactly as Go's `encoding/json` does with the
default `SetEscapeHTML(true)`: quote, backslash, the three HTML characters,
control characters, and U+2028/U+2029. -/
def goEscapeChar (c : Char) : String :=
  if c = '"' then "\\\""
  else if c = '\\' then "\\\\"
  else if c = '\n' then "\\n"
  else if c = '\r' then "\\r"
  else if c = '\t' then "\\t"
  else if c = '<' then "\\u003c"
  else if c = '>' then "\\u003e"
  else if c = '&' then "\\u0026"
  else if c.toNat < 32 then
    "\\u00" ++ String.mk [hexDigit (c.toNat / 16), hexDigit (c.toNat % 16)]
  else if c.toNat = 8232 then "\\u2028"
  else if c.toNat = 8233 then "\\u2029"
  else String.mk [c]

/-- Go `encoding/json` serialization of a string value. -/
def goQuote (s : String) : String :=
  "\"" ++ String.join (s.toList.map goEscapeChar) ++ "\""

/-- Go `json.Marshal` of an `APIRequestBody`: fields in declaration order
with their JSON tags THREAD_ID, CHANNEL_ID, USER_ID, QUERY. -/
def goMarshalAPIRequestBody (b : APIRequestBody) : String :=
  "\x7b\"THREAD_ID\":" ++ goQuote b.THREAD_ID ++
    ",\"CHANNEL_ID\":" ++ goQuote b.CHANNEL_ID ++
    ",\"USER_ID\":" ++ goQuote b.USER_ID ++
    ",\"QUERY\":" ++ goQuote b.QUERY ++ "\x7d"

/-- The body written by `json.NewEncoder(w).Encode(map[string]string
\x7b"challenge": payload.Challenge\x7d)`: the one-key JSON object followed by
the newline the encoder appends. -/
def encodeChallenge (challenge : String) : String :=
  "\x7b\"challenge\":" ++ goQuote challenge ++ "\x7d\n"

/-- The guard of the event-forwarding branch of `handleSlackEvents`:
`payload.Type == "event_callback" && (payload.Event.Type == "app_mention" ||
(payload.Event.ChannelType == "im" && payload.Event.Type == "message" &&
payload.Event.BotID == ""))`. -/
def qualifies (p : SlackEventPayload) : Prop :=
  p.type = "event_callback" ∧
    (p.event.type = "app_mention" ∨
      (p.event.channelType = "im" ∧ p.event.type = "message" ∧ p.event.botID = ""))

instance (p : SlackEventPayload) : Decidable (qualifies p) := by
  unfold qualifies
  infer_instance

/-- The `APIRequestBody` built by the forwarding branch: start from
`Event.ThreadTS`; if empty fall back to `Event.TS`; if the channel type is
`"im"` force the thread id to the empty string. -/
def buildAPIBody (e : SlackMessageEvent) : APIRequestBody :=
  let t1 := if e.threadTS = "" then e.ts else e.threadTS
  let t2 := if e.channelType = "im" then "" else t1
  { THREAD_ID := t2, CHANNEL_ID := e.channelID, USER_ID := e.user, QUERY := e.text }

/-- Shallow embedding of `handleSlackEvents` from main.go.  Inputs:
the two configuration values closed over by the Go closure, the request
method, whether `io.ReadAll(r.Body)` succeeded, the result of
`json.Unmarshal` on the raw body (`none` means the body does not parse as a
`SlackEventPayload`), and the downstream-I/O oracle. -/
def handleSlackEvents (accessToken : String) (taskAPI : String) (method : String)
    (bodyReadOk : Bool) (parsed : Option SlackEventPayload) (env : DownstreamEnv) :
    HandlerResult :=
  if method ≠ "POST" then
    { status := 405, body := "Method not allowed\n", attempts := [] }
  else if !bodyReadOk then
    { status := 500, body := "Failed to read request body\n", attempts := [] }
  else
    match parsed with
    | none => { status := 400, body := "Failed to parse request body\n", attempts := [] }
    | some payload =>
      if payload.type = "url_verification" then
        { status := 200, body := encodeChallenge payload.challenge, attempts := [] }
      else if qualifies payload then
        let apiBody := buildAPIBody payload.event
        if !env.marshalOk then
          { status := 500, body := "Failed to create request body\n", attempts := [] }
        else
          let jsonBody := goMarshalAPIRequestBody apiBody
          if !env.newRequestOk then
            { status := 500, body := "Failed to create API request\n", attempts := [] }
          else
            let req : DownstreamRequest :=
              { method := "POST", url := taskAPI, contentType := "application/json",
                cookie := "obot_access_token=" ++ accessToken, bodyJson := jsonBody }
            if !env.sendOk then
              { status := 500, body := "Failed to send request to API\n", attempts := [req] }
            else if !env.readOk then
              { status := 500, body := "Failed to read response body\n", attempts := [req] }
            else
              { status := 200, body := "", attempts := [req] }
      else
        { status := 200, body := "", attempts := [] }

/-- The environment variables `main` reads at startup. -/
structure StartupEnv where
  OBOT_ACCESS_TOKEN : String
  TASK_API_URL : String
  PORT : String
deriving DecidableEq, Repr

/-- The configuration the server runs with when startup succeeds. -/
structure ServerConfig where
  accessToken : String
  taskAPI : String
  port : String
deriving DecidableEq, Repr

/-- Shallow embedding of the configuration phase of `main`: `log.Fatal`
(modelled as `none`) exactly when `os.Getenv("OBOT_ACCESS_TOKEN")` is empty
(Go's `os.Getenv` returns the empty string for an absent variable);
otherwise the server starts with the token, the (possibly empty)
`TASK_API_URL`, and the port defaulting to "8088". -/
def mainStartup (env : StartupEnv) : Option ServerConfig :=
  if env.OBOT_ACCESS_TOKEN = "" then none
  else
    some { accessToken := env.OBOT_ACCESS_TOKEN,
           taskAPI := env.TASK_API_URL,
           port := if env.PORT = "" then "8088" else env.PORT }

/-- A concrete app-mention event (the worked example of the spec). -/
def evA : SlackMessageEvent :=
  { type := "app_mention", text := "hi", channelID := "C1", threadTS := "",
    ts := "100.1", user := "U1", channelType := "channel", botID := "" }

/-- A concrete qualifying `event_callback` envelope. -/
def payloadA : SlackEventPayload :=
  { type := "event_callback", challenge := "", event := evA }

/-- An app-mention event carrying a non-empty `bot_id`. -/
def evBot : SlackMessageEvent :=
  { type := "app_mention", text := "hello", channelID := "C2", threadTS := "7.7",
    ts := "8.8", user := "U2", channelType := "channel", botID := "B1" }

/-- An `event_callback` envelope whose event is `evBot`. -/
def payloadBot : SlackEventPayload :=
  { type := "event_callback", challenge := "", event := evBot }

/-- A direct-message event from a bot (non-empty `bot_id` in an im channel). -/
def evImBot : SlackMessageEvent :=
  { type := "message", text := "loop", channelID := "D1", threadTS := "1.1",
    ts := "2.2", user := "U3", channelType := "im", botID := "B9" }

/-- An `event_callback` envelope whose event is `evImBot`. -/
def payloadImBot : SlackEventPayload :=
  { type := "event_callback", challenge := "", event := evImBot }

/-- A concrete verification envelope with characters the encoder escapes. -/
def payloadV : SlackEventPayload :=
  { type := "url_verification", challenge := "ch<1>&", event := evA }

/-- The all-success downstream oracle. -/
def envOk : DownstreamEnv :=
  { marshalOk := true, newRequestOk := true, sendOk := true, readOk := true }

/-- A downstream oracle in which `client.Do` fails. -/
def envSendFail : DownstreamEnv :=
  { marshalOk := true, newRequestOk := true, sendOk := false, readOk := true }

/-- Helper: with marshal and request construction succeeding, a qualifying
envelope always produces exactly the one downstream request built from
`buildAPIBody`, whatever the outcome of the send and of reading the
response. -/
theorem attempts_of_qualifying (tok api : String) (p : SlackEventPayload)
    (env : DownstreamEnv) (hm : env.marshalOk = true) (hn : env.newRequestOk = true)
    (hq : qualifies p) :
    (handleSlackEvents tok api "POST" true (some p) env).attempts =
      [{ method := "POST", url := api, contentType := "application/json",
         cookie := "obot_access_token=" ++ tok,
         bodyJson := goMarshalAPIRequestBody (buildAPIBody p.event) }] := by
  have hv : p.type ≠ "url_verification" := by
    intro h
    have := hq.1
    rw [h] at this
    exact absurd this (by decide)
  obtain ⟨m, n, s, r⟩ := env
  simp only at hm hn
  subst hm
  subst hn
  cases s <;> cases r <;> simp [handleSlackEvents, hv, hq]

/-- Helper: with marshal and request construction succeeding, a
non-qualifying non-verification envelope produces no downstream request. -/
theorem attempts_of_not_qualifying (tok api : String) (p : SlackEventPayload)
    (env : DownstreamEnv) (hq : ¬ qualifies p) :
    (handleSlackEvents tok api "POST" true (some p) env).attempts = [] := by
  by_cases hv : p.type = "url_verification"
  · simp [handleSlackEvents, hv]
  · simp [handleSlackEvents, hv, hq]

/-- C1: For every parsed inbound envelope (with downstream body marshalling
and request construction succeeding), the handler invokes the downstream
POST if and only if the envelope type is "event_callback" and either the
event type is "app_mention", or the event is an "im"-channel "message" with
empty bot_id. -/
theorem C1_downstream_iff_qualifying (tok api : String) (p : SlackEventPayload)
    (env : DownstreamEnv) (hm : env.marshalOk = true) (hn : env.newRequestOk = true) :
    (handleSlackEvents tok api "POST" true (some p) env).attempts ≠ [] ↔
      p.type = "event_callback" ∧
        (p.event.type = "app_mention" ∨
          (p.event.channelType = "im" ∧ p.event.type = "message" ∧
            p.event.botID = "")) := by
  by_cases hq : qualifies p
  · rw [attempts_of_qualifying tok api p env hm hn hq]
    simpa using hq
  · rw [attempts_of_not_qualifying tok api p env hq]
    simp only [ne_eq, not_true_eq_false, false_iff]
    exact hq

/-- C1 witness: the concrete app-mention envelope `payloadA` under the
all-success oracle. -/
theorem C1_witness :
    (handleSlackEvents "tok" "http://task" "POST" true (some payloadA) envOk).attempts ≠ [] ↔
      payloadA.type = "event_callback" ∧
        (payloadA.event.type = "app_mention" ∨
          (payloadA.event.channelType = "im" ∧ payloadA.event.type = "message" ∧
            payloadA.event.botID = "")) :=
  C1_downstream_iff_qualifying "tok" "http://task" payloadA envOk rfl rfl

/-- C2: for every qualifying event the single forwarded request's body is
built by `buildAPIBody`, whose THREAD_ID is empty when the channel type is
"im", and otherwise equals thread_ts when non-empty and ts when thread_ts
is empty. -/
theorem C2_thread_id (tok api : String) (p : SlackEventPayload)
    (env : DownstreamEnv) (hm : env.marshalOk = true) (hn : env.newRequestOk = true)
    (hq : qualifies p) :
    (handleSlackEvents tok api "POST" true (some p) env).attempts =
      [{ method := "POST", url := api, contentType := "application/json",
         cookie := "obot_access_token=" ++ tok,
         bodyJson := goMarshalAPIRequestBody (buildAPIBody p.event) }] ∧
      (buildAPIBody p.event).THREAD_ID =
        (if p.event.channelType = "im" then ""
         else if p.event.threadTS = "" then p.event.ts else p.event.threadTS) := by
  refine ⟨attempts_of_qualifying tok api p env hm hn hq, ?_⟩
  by_cases him : p.event.channelType = "im" <;>
    by_cases hts : p.event.threadTS = "" <;>
      simp [buildAPIBody, him, hts]

/-- C2 witness: the concrete app-mention envelope `payloadA` (empty
thread_ts, non-im channel) under the all-success oracle. -/
theorem C2_witness :
    (handleSlackEvents "tok" "http://task" "POST" true (some payloadA) envOk).attempts =
      [{ method := "POST", url := "http://task", contentType := "application/json",
         cookie := "obot_access_token=" ++ "tok",
         bodyJson := goMarshalAPIRequestBody (buildAPIBody payloadA.event) }] ∧
      (buildAPIBody payloadA.event).THREAD_ID =
        (if payloadA.event.channelType = "im" then ""
         else if payloadA.event.threadTS = "" then payloadA.event.ts
          else payloadA.event.threadTS) :=
  C2_thread_id "tok" "http://task" payloadA envOk rfl rfl (by decide)

/-- C3: for every parsed envelope of type "url_verification" the handler
responds 200 with the challenge-echo JSON body, performs no downstream
call, and the response depends on nothing but the challenge field. -/
theorem C3_url_verification (tok api : String) (p : SlackEventPayload)
    (env : DownstreamEnv) (hv : p.type = "url_verification") :
    handleSlackEvents tok api "POST" true (some p) env =
      { status := 200, body := encodeChallenge p.challenge, attempts := [] } := by
  simp [handleSlackEvents, hv]

/-- C3 witness: a concrete verification envelope. -/
theorem C3_witness :
    handleSlackEvents "tok" "http://task" "POST" true (some payloadV) envOk =
      { status := 200, body := encodeChallenge payloadV.challenge, attempts := [] } :=
  C3_url_verification "tok" "http://task" payloadV envOk rfl

/-- C4: for every qualifying event the downstream request is a POST to the
configured URL with Content-Type application/json, the access-token cookie,
and body the JSON serialization of THREAD_ID/CHANNEL_ID/USER_ID/QUERY with
CHANNEL_ID = event.channel, USER_ID = event.user, QUERY = event.text. -/
theorem C4_outbound_request (tok api : String) (p : SlackEventPayload)
    (env : DownstreamEnv) (hm : env.marshalOk = true) (hn : env.newRequestOk = true)
    (hq : qualifies p) :
    (handleSlackEvents tok api "POST" true (some p) env).attempts =
      [{ method := "POST", url := api, contentType := "application/json",
         cookie := "obot_access_token=" ++ tok,
         bodyJson := goMarshalAPIRequestBody
           { THREAD_ID := (buildAPIBody p.event).THREAD_ID,
             CHANNEL_ID := p.event.channelID,
             USER_ID := p.event.user,
             QUERY := p.event.text } }] := by
  rw [attempts_of_qualifying tok api p env hm hn hq]
  rfl

/-- C4 witness: the concrete app-mention envelope `payloadA`. -/
theorem C4_witness :
    (handleSlackEvents "tok" "http://task" "POST" true (some payloadA) envOk).attempts =
      [{ method := "POST", url := "http://task", contentType := "application/json",
         cookie := "obot_access_token=" ++ "tok",
         bodyJson := goMarshalAPIRequestBody
           { THREAD_ID := (buildAPIBody payloadA.event).THREAD_ID,
             CHANNEL_ID := payloadA.event.channelID,
             USER_ID := payloadA.event.user,
             QUERY := payloadA.event.text } }] :=
  C4_outbound_request "tok" "http://task" payloadA envOk rfl rfl (by decide)

/-- C5: every parsed envelope that is neither a url_verification envelope
nor a qualifying event_callback triggers no downstream call and gets a 200
response with an empty body. -/
theorem C5_other_envelopes (tok api : String) (p : SlackEventPayload)
    (env : DownstreamEnv) (hv : p.type ≠ "url_verification")
    (hq : ¬ (p.type = "event_callback" ∧
        (p.event.type = "app_mention" ∨
          (p.event.channelType = "im" ∧ p.event.type = "message" ∧
            p.event.botID = "")))) :
    handleSlackEvents tok api "POST" true (some p) env =
      { status := 200, body := "", attempts := [] } := by
  have hq' : ¬ qualifies p := hq
  simp [handleSlackEvents, hv, hq']

/-- C5 witness: an im-channel message event with non-empty bot_id. -/
theorem C5_witness :
    handleSlackEvents "tok" "http://task" "POST" true (some payloadImBot) envOk =
      { status := 200, body := "", attempts := [] } :=
  C5_other_envelopes "tok" "http://task" payloadImBot envOk (by decide) (by decide)

/-- C6: for every qualifying event, if marshalling the body, building the
request, sending it, or reading the response fails, the handler responds
500 to the original caller, and at most one downstream attempt is made (no
retry). -/
theorem C6_downstream_failure (tok api : String) (p : SlackEventPayload)
    (env : DownstreamEnv) (hq : qualifies p)
    (hf : env.marshalOk = false ∨ env.newRequestOk = false ∨
      env.sendOk = false ∨ env.readOk = false) :
    (handleSlackEvents tok api "POST" true (some p) env).status = 500 ∧
      (handleSlackEvents tok api "POST" true (some p) env).attempts.length ≤ 1 := by
  have hv : p.type ≠ "url_verification" := by
    intro h
    have := hq.1
    rw [h] at this
    exact absurd this (by decide)
  obtain ⟨m, n, s, r⟩ := env
  cases m <;> cases n <;> cases s <;> cases r <;>
    simp_all [handleSlackEvents, hv, hq]

/-- C6 witness: the app-mention envelope `payloadA` with a failing send. -/
theorem C6_witness :
    (handleSlackEvents "tok" "http://task" "POST" true (some payloadA) envSendFail).status
        = 500 ∧
      (handleSlackEvents "tok" "http://task" "POST" true
          (some payloadA) envSendFail).attempts.length ≤ 1 :=
  C6_downstream_failure "tok" "http://task" payloadA envSendFail (by decide)
    (Or.inr (Or.inr (Or.inl rfl)))

/-- C7: every POST request whose body does not parse as a
SlackEventPayload gets a 400 response and triggers no downstream call. -/
theorem C7_malformed_body (tok api : String) (env : DownstreamEnv) :
    handleSlackEvents tok api "POST" true none env =
      { status := 400, body := "Failed to parse request body\n", attempts := [] } := by
  simp [handleSlackEvents]

/-- C8: every request whose method is not POST gets a 405 response and no
further processing: no downstream call, whatever the body. -/
theorem C8_non_post (tok api method : String) (bodyReadOk : Bool)
    (parsed : Option SlackEventPayload) (env : DownstreamEnv)
    (h : method ≠ "POST") :
    handleSlackEvents tok api method bodyReadOk parsed env =
      { status := 405, body := "Method not allowed\n", attempts := [] } := by
  simp [handleSlackEvents, h]

/-- C8 witness: a GET request with a qualifying body. -/
theorem C8_witness :
    handleSlackEvents "tok" "http://task" "GET" true (some payloadA) envOk =
      { status := 405, body := "Method not allowed\n", attempts := [] } :=
  C8_non_post "tok" "http://task" "GET" true (some payloadA) envOk (by decide)

/-- C9: startup is fatal (before serving any traffic) exactly when
OBOT_ACCESS_TOKEN is empty/absent; since the condition mentions no other
variable, an absent TASK_API_URL never prevents startup. -/
theorem C9_startup_fatal_iff (env : StartupEnv) :
    mainStartup env = none ↔ env.OBOT_ACCESS_TOKEN = "" := by
  unfold mainStartup
  by_cases h : env.OBOT_ACCESS_TOKEN = "" <;> simp [h]

/-- C10: an event_callback whose event type is app_mention is forwarded
downstream even with a non-empty bot_id: the bot filter only guards the
im-message disjunct. -/
theorem C10_app_mention_ignores_bot_id (tok api : String) (p : SlackEventPayload)
    (env : DownstreamEnv) (hm : env.marshalOk = true) (hn : env.newRequestOk = true)
    (ht : p.type = "event_callback") (he : p.event.type = "app_mention")
    (_hb : p.event.botID ≠ "") :
    (handleSlackEvents tok api "POST" true (some p) env).attempts ≠ [] := by
  rw [attempts_of_qualifying tok api p env hm hn ⟨ht, Or.inl he⟩]
  simp

/-- C10 witness: an app-mention envelope with bot_id "B1". -/
theorem C10_witness :
    (handleSlackEvents "tok" "http://task" "POST" true
        (some payloadBot) envOk).attempts ≠ [] :=
  C10_app_mention_ignores_bot_id "tok" "http://task" payloadBot envOk rfl rfl
    (by decide) (by decide) (by decide)
